import Mathlib

/-!
# Verification of the chimera-pool algorithm-engine hot-swap controller

Shallow embedding of `src/algorithm-engine/src/hot_swap.rs`,
`src/algorithm-engine/src/lib.rs` and `src/algorithm-engine/src/algorithms.rs`.

Modelling conventions:
* Rust `f64` percentages, scores and error rates are modelled as `ℚ`
  (all values the code produces are exact decimal constants and exact
  counter quotients; no claim under verification depends on binary
  floating-point rounding).
* Byte strings (`&[u8]`, `Vec<u8>`) are `List Nat` whose elements stand
  for bytes.
* The manager's interior-mutability cells (`Arc<RwLock<_>>`, `Mutex<_>`)
  become plain record fields; each controller method becomes a function
  from the manager record to the updated record paired with its return
  value, mirroring the sequence of lock acquisitions in the source.
* `Instant`-valued fields (`MigrationMetrics.start_time`) carry wall-clock
  time that no decision logic reads; they are omitted from the record.
* The per-request traffic draw in `should_use_staged_algorithm` reads the
  current thread id's hash; that hash value is passed in explicitly as a
  `Nat` parameter (`threadHash`), making the nondeterminism a function
  argument.
* `Uuid::new_v4()` in `start_migration` is likewise passed in as an
  explicit `migrationId : String` argument.
* The external hashing libraries (blake2, sha2, scrypt crates) are outside
  the repository; each engine's raw digest primitive is an explicit
  function parameter, while the repository's own wrapper logic
  (nonce appending, target comparison, error shaping) is embedded exactly.
-/

namespace ChimeraPool

/-- Rust `AlgorithmError { code, message, details }`; the `HashMap` of
details is modelled as an association list. -/
structure AlgorithmError where
  code : String
  message : String
  details : List (String × String)
deriving DecidableEq

/-- Rust `AlgorithmResult<T> { success, data, error }`. -/
structure AlgorithmResult (T : Type) where
  success : Bool
  data : Option T
  error : Option AlgorithmError
deriving DecidableEq

/-- `AlgorithmResult::success(data)` from `lib.rs`. -/
def AlgorithmResult.mkSuccess {T : Type} (data : T) : AlgorithmResult T :=
  { success := true, data := some data, error := none }

/-- `AlgorithmResult::error(code, message)` from `lib.rs`. -/
def AlgorithmResult.mkError {T : Type} (code message : String) : AlgorithmResult T :=
  { success := false, data := none,
    error := some { code := code, message := message, details := [] } }

/-- The error code carried by a result, if any (spec-side accessor). -/
def AlgorithmResult.errCode {T : Type} (r : AlgorithmResult T) : Option String :=
  r.error.map (fun e => e.code)

/-- The `MiningAlgorithm` trait object: name, version and the `hash`
method.  (`verify` for the concrete engines is embedded separately below;
the hot-swap manager itself only ever calls `hash`, `name`, `version`.) -/
structure MiningAlgorithm where
  name : String
  version : String
  hash : List Nat → AlgorithmResult (List Nat)

/-- Rust enum `StagingStatus` from `hot_swap.rs`. -/
inductive StagingStatus where
  | NotStaged
  | Staging
  | ValidationInProgress
  | ValidationPassed
  | ValidationFailed
  | Ready
deriving DecidableEq

/-- Rust enum `MigrationState` from `hot_swap.rs`; `percentage : f64`
becomes `ℚ`. -/
inductive MigrationState where
  | Idle
  | ShadowMode (percentage : ℚ)
  | GradualMigration (percentage : ℚ)
  | Finalizing
  | Complete
  | RollingBack
  | RollbackComplete
  | Failed
deriving DecidableEq

/-- Rust struct `ValidationResults`. -/
structure ValidationResults where
  compatibility_check : Bool
  performance_benchmark : ℚ
  security_validation : Bool
  test_vectors_passed : Bool
  memory_requirements_met : Bool
  errors : List String
  warnings : List String
deriving DecidableEq

/-- Rust struct `MigrationConfig`. -/
structure MigrationConfig where
  shadow_duration_secs : Nat
  phase_duration_secs : Nat
  rollback_on_error : Bool
  max_error_rate : ℚ
  gradual_percentages : List ℚ
deriving DecidableEq

/-- `impl Default for MigrationConfig`: 5-minute shadow, 10-minute phases,
5% error budget, ramp `[0.01, 0.05, 0.10, 0.25, 0.50, 0.75, 1.0]`. -/
def MigrationConfig.default : MigrationConfig :=
  { shadow_duration_secs := 300
    phase_duration_secs := 600
    rollback_on_error := true
    max_error_rate := 1/20
    gradual_percentages := [1/100, 1/20, 1/10, 1/4, 1/2, 3/4, 1] }

/-- Rust struct `MigrationMetrics` (the unread `start_time : Option<Instant>`
timestamp is omitted, see the header note). -/
structure MigrationMetrics where
  shadow_mode_errors : Nat
  shadow_mode_successes : Nat
  migration_errors : Nat
  migration_successes : Nat
  current_error_rate : ℚ
deriving DecidableEq

/-- `MigrationMetrics::default()`. -/
def MigrationMetrics.default : MigrationMetrics :=
  { shadow_mode_errors := 0, shadow_mode_successes := 0,
    migration_errors := 0, migration_successes := 0, current_error_rate := 0 }

/-- Rust struct `AlgorithmHotSwapManager`, with the lock cells flattened
into record fields. -/
structure AlgorithmHotSwapManager where
  active_algorithm : MiningAlgorithm
  staged_algorithm : Option MiningAlgorithm
  staging_status : StagingStatus
  migration_state : MigrationState
  validation_results : Option ValidationResults
  migration_config : MigrationConfig
  migration_metrics : MigrationMetrics

/-- `AlgorithmHotSwapManager::new(initial_algorithm)`. -/
def AlgorithmHotSwapManager.new (initial_algorithm : MiningAlgorithm) :
    AlgorithmHotSwapManager :=
  { active_algorithm := initial_algorithm
    staged_algorithm := none
    staging_status := .NotStaged
    migration_state := .Idle
    validation_results := none
    migration_config := MigrationConfig.default
    migration_metrics := MigrationMetrics.default }

namespace AlgorithmHotSwapManager

/-- The body of `validate_staged_algorithm` after the five probe calls,
as a function of the five probe outcomes: errors and warnings are pushed
in source order (compatibility error, performance warning, security
error, test-vector error, memory warning). -/
def validation_results_of_checks (compat : Bool) (perf : ℚ)
    (security vectors memory : Bool) : ValidationResults :=
  { compatibility_check := compat
    performance_benchmark := perf
    security_validation := security
    test_vectors_passed := vectors
    memory_requirements_met := memory
    errors :=
      (if compat then [] else ["Compatibility check failed"]) ++
      (if security then [] else ["Security validation failed"]) ++
      (if vectors then [] else ["Test vectors failed"])
    warnings :=
      (if perf < 4/5 then ["Performance below expected threshold"] else []) ++
      (if memory then [] else ["High memory usage detected"]) }

/-- `validate_staged_algorithm`: fails when nothing is staged; otherwise
runs the five placeholder probes, which in the source return the
constants `true`, `0.9`, `true`, `true`, `true`. -/
def validate_staged_algorithm (m : AlgorithmHotSwapManager) :
    Except String ValidationResults :=
  match m.staged_algorithm with
  | none => .error "No algorithm staged"
  | some _ => .ok (validation_results_of_checks true (9/10) true true true)

/-- `is_validation_successful`: compatibility, security and test vectors
all true and no recorded errors. -/
def is_validation_successful (results : ValidationResults) : Bool :=
  results.compatibility_check
    && results.security_validation
    && results.test_vectors_passed
    && results.errors.isEmpty

/-- `stage_algorithm`: refuse when a staging attempt is outstanding or a
validated candidate is already present, otherwise store the candidate,
run validation, and land in `ValidationPassed` or `ValidationFailed`. -/
def stage_algorithm (m : AlgorithmHotSwapManager) (algorithm : MiningAlgorithm) :
    AlgorithmHotSwapManager × AlgorithmResult String :=
  match m.staging_status with
  | .Staging | .ValidationInProgress | .ValidationPassed | .Ready =>
      (m, .mkError "STAGING_IN_PROGRESS"
        "Another algorithm is currently being staged or already staged")
  | _ =>
      let algorithm_id := algorithm.name ++ "_" ++ algorithm.version
      let m₁ := { m with staging_status := .Staging }
      let m₂ := { m₁ with staged_algorithm := some algorithm }
      let m₃ := { m₂ with staging_status := .ValidationInProgress }
      match validate_staged_algorithm m₃ with
      | .ok results =>
          let m₄ := { m₃ with validation_results := some results }
          if is_validation_successful results then
            ({ m₄ with staging_status := .ValidationPassed },
              .mkSuccess algorithm_id)
          else
            ({ m₄ with staging_status := .ValidationFailed },
              .mkError "VALIDATION_FAILED" "Algorithm validation failed")
      | .error e =>
          ({ m₃ with staging_status := .ValidationFailed },
            .mkError "VALIDATION_ERROR" ("Validation error: " ++ e))

/-- `start_migration` (the fresh `Uuid` is passed in as `migrationId`). -/
def start_migration (m : AlgorithmHotSwapManager) (migrationId : String) :
    AlgorithmHotSwapManager × AlgorithmResult String :=
  if ¬ (m.staging_status = .ValidationPassed ∨ m.staging_status = .Ready) then
    (m, .mkError "NOT_READY_FOR_MIGRATION"
      "No validated algorithm available for migration")
  else if ¬ (m.migration_state = .Idle) then
    (m, .mkError "MIGRATION_IN_PROGRESS" "Migration is already in progress")
  else
    let m₁ := { m with migration_metrics := MigrationMetrics.default }
    let m₂ := { m₁ with migration_state := .ShadowMode 1 }
    (m₂, .mkSuccess migrationId)

/-- `should_use_staged_algorithm`: the per-request draw — the thread id's
hash reduced mod 10000, scaled to `[0,1)`, compared against the
percentage. -/
def should_use_staged_algorithm (threadHash : Nat) (percentage : ℚ) : Bool :=
  decide (((threadHash % 10000 : Nat) : ℚ) / 10000 < percentage)

/-- `hash_with_active_algorithm`. -/
def hash_with_active_algorithm (m : AlgorithmHotSwapManager)
    (input : List Nat) : AlgorithmResult (List Nat) :=
  m.active_algorithm.hash input

/-- `hash_with_staged_algorithm`. -/
def hash_with_staged_algorithm (m : AlgorithmHotSwapManager)
    (input : List Nat) : Option (AlgorithmResult (List Nat)) :=
  m.staged_algorithm.map (fun alg => alg.hash input)

/-- `record_shadow_mode_result`. -/
def record_shadow_mode_result (m : AlgorithmHotSwapManager)
    (result : AlgorithmResult (List Nat)) : AlgorithmHotSwapManager :=
  if result.success then
    { m with migration_metrics :=
        { m.migration_metrics with
          shadow_mode_successes := m.migration_metrics.shadow_mode_successes + 1 } }
  else
    { m with migration_metrics :=
        { m.migration_metrics with
          shadow_mode_errors := m.migration_metrics.shadow_mode_errors + 1 } }

/-- `record_migration_result`: bump the success/error counter, then
rederive `current_error_rate = errors / (successes + errors)`. -/
def record_migration_result (m : AlgorithmHotSwapManager)
    (result : AlgorithmResult (List Nat)) : AlgorithmHotSwapManager :=
  let metrics₁ :=
    if result.success then
      { m.migration_metrics with
        migration_successes := m.migration_metrics.migration_successes + 1 }
    else
      { m.migration_metrics with
        migration_errors := m.migration_metrics.migration_errors + 1 }
  let total := metrics₁.migration_successes + metrics₁.migration_errors
  let metrics₂ :=
    if total > 0 then
      { metrics₁ with
        current_error_rate := (metrics₁.migration_errors : ℚ) / (total : ℚ) }
    else metrics₁
  { m with migration_metrics := metrics₂ }

/-- `process_hash_request`; `threadHash` feeds the per-request draw. -/
def process_hash_request (m : AlgorithmHotSwapManager) (threadHash : Nat)
    (input : List Nat) : AlgorithmHotSwapManager × AlgorithmResult (List Nat) :=
  match m.migration_state with
  | .Idle => (m, m.hash_with_active_algorithm input)
  | .ShadowMode percentage =>
      let active_result := m.hash_with_active_algorithm input
      if should_use_staged_algorithm threadHash percentage then
        match m.hash_with_staged_algorithm input with
        | some result => (m.record_shadow_mode_result result, active_result)
        | none => (m, active_result)
      else
        (m, active_result)
  | .GradualMigration percentage =>
      if should_use_staged_algorithm threadHash percentage then
        match m.hash_with_staged_algorithm input with
        | some result => (m.record_migration_result result, result)
        | none => (m, m.hash_with_active_algorithm input)
      else
        (m, m.hash_with_active_algorithm input)
  | _ => (m, m.hash_with_active_algorithm input)

/-- `should_proceed_from_shadow_mode`: at least 50 shadow samples and a
shadow error rate within the configured budget. -/
def should_proceed_from_shadow_mode (m : AlgorithmHotSwapManager) : Bool :=
  let total := m.migration_metrics.shadow_mode_successes +
    m.migration_metrics.shadow_mode_errors
  if total < 50 then
    false
  else
    let error_rate : ℚ :=
      if total > 0 then (m.migration_metrics.shadow_mode_errors : ℚ) / (total : ℚ)
      else 0
    decide (error_rate ≤ m.migration_config.max_error_rate)

/-- `should_advance_migration_phase`: the recorded gradual-migration error
rate is within the configured budget. -/
def should_advance_migration_phase (m : AlgorithmHotSwapManager) : Bool :=
  decide (m.migration_metrics.current_error_rate ≤ m.migration_config.max_error_rate)

/-- `get_next_migration_percentage`: first configured ramp value strictly
greater than the current percentage. -/
def get_next_migration_percentage (current : ℚ) (percentages : List ℚ) :
    Option ℚ :=
  percentages.find? (fun p => decide (p > current))

/-- `finalize_migration`: mark `Finalizing`, then atomically promote the
staged engine to active (clearing the staged slot) and mark `Complete`;
error out (stuck in `Finalizing`) when no candidate is present. -/
def finalize_migration (m : AlgorithmHotSwapManager) :
    AlgorithmHotSwapManager × AlgorithmResult MigrationState :=
  let m₁ := { m with migration_state := .Finalizing }
  match m₁.staged_algorithm with
  | some staged =>
      ({ m₁ with
          active_algorithm := staged
          staged_algorithm := none
          migration_state := .Complete
          staging_status := .NotStaged },
        .mkSuccess .Complete)
  | none =>
      (m₁, .mkError "NO_STAGED_ALGORITHM"
        "No staged algorithm available for finalization")

/-- First half of `rollback_migration`: enter `RollingBack`. -/
def rollback_begin (m : AlgorithmHotSwapManager) : AlgorithmHotSwapManager :=
  { m with migration_state := .RollingBack }

/-- Second half of `rollback_migration`: clear the staged engine, the
staging status and the validation report, then land in
`RollbackComplete`. -/
def rollback_finish (m : AlgorithmHotSwapManager) :
    AlgorithmHotSwapManager × AlgorithmResult MigrationState :=
  ({ m with
      staged_algorithm := none
      staging_status := .NotStaged
      validation_results := none
      migration_state := .RollbackComplete },
    .mkSuccess .RollbackComplete)

/-- `rollback_migration`: always passes through `RollingBack` and ends in
`RollbackComplete`. -/
def rollback_migration (m : AlgorithmHotSwapManager) :
    AlgorithmHotSwapManager × AlgorithmResult MigrationState :=
  rollback_finish (rollback_begin m)

/-- `advance_migration`. -/
def advance_migration (m : AlgorithmHotSwapManager) :
    AlgorithmHotSwapManager × AlgorithmResult MigrationState :=
  match m.migration_state with
  | .ShadowMode _ =>
      if m.should_proceed_from_shadow_mode then
        let first_percentage :=
          (m.migration_config.gradual_percentages.head?).getD (1/20)
        let new_state := MigrationState.GradualMigration first_percentage
        ({ m with migration_state := new_state }, .mkSuccess new_state)
      else
        m.rollback_migration
  | .GradualMigration percentage =>
      if m.should_advance_migration_phase then
        match get_next_migration_percentage percentage
            m.migration_config.gradual_percentages with
        | some next_percentage =>
            if next_percentage ≥ 1 then
              m.finalize_migration
            else
              let new_state := MigrationState.GradualMigration next_percentage
              ({ m with migration_state := new_state }, .mkSuccess new_state)
        | none => m.finalize_migration
      else
        m.rollback_migration
  | _ =>
      (m, .mkError "INVALID_MIGRATION_STATE"
        "Cannot advance migration from current state")

end AlgorithmHotSwapManager

/-! ## Concrete engines (`lib.rs`, `algorithms.rs`)

The three shipped engines differ only in which external digest primitive
their `hash` wraps; their `verify` bodies are textually identical.  The
raw primitives (crates `blake2`, `sha2`, `scrypt`) live outside the
repository and enter as function parameters. -/

/-- `u64::to_le_bytes`: the 8-byte little-endian encoding of a nonce. -/
def u64_le_bytes (n : Nat) : List Nat :=
  [n % 256, n / 256 % 256, n / 256 ^ 2 % 256, n / 256 ^ 3 % 256,
   n / 256 ^ 4 % 256, n / 256 ^ 5 % 256, n / 256 ^ 6 % 256, n / 256 ^ 7 % 256]

/-- Rust slice ordering `hash.as_slice() < target`: lexicographic, first
differing byte decides, a strict prefix is smaller. -/
def lexLt : List Nat → List Nat → Bool
  | _, [] => false
  | [], _ :: _ => true
  | a :: as', b :: bs => if a < b then true else if b < a then false else lexLt as' bs

/-- The target test shared by every `verify` implementation: an empty
target never passes, an all-`0xFF` target always passes, otherwise the
hash must have the target's length and be lexicographically below it. -/
def meets_target (hash target : List Nat) : Bool :=
  if target = [] then false
  else if target.all (fun b => b == 255) then true
  else (hash.length == target.length) && lexLt hash target

/-- The shared `verify` body: append the little-endian nonce to the
input, hash, and on hashing success compare against the target. -/
def verify_with (hashFn : List Nat → AlgorithmResult (List Nat))
    (input target : List Nat) (nonce : Nat) : AlgorithmResult Bool :=
  let data := input ++ u64_le_bytes nonce
  match hashFn data with
  | { success := true, data := some hash, .. } =>
      .mkSuccess (meets_target hash target)
  | _ => .mkError "HASH_FAILED" "Failed to hash input for verification"

/-- `Blake2SAlgorithm::hash`: always succeeds with the Blake2s-256 digest
(`blake2s256` is the external primitive). -/
def Blake2SAlgorithm.hash (blake2s256 : List Nat → List Nat)
    (input : List Nat) : AlgorithmResult (List Nat) :=
  .mkSuccess (blake2s256 input)

/-- `Blake2SAlgorithm::verify`. -/
def Blake2SAlgorithm.verify (blake2s256 : List Nat → List Nat)
    (input target : List Nat) (nonce : Nat) : AlgorithmResult Bool :=
  verify_with (Blake2SAlgorithm.hash blake2s256) input target nonce

/-- `Sha256dAlgorithm::hash`: double SHA-256, always succeeds (`sha256`
is the external primitive). -/
def Sha256dAlgorithm.hash (sha256 : List Nat → List Nat)
    (input : List Nat) : AlgorithmResult (List Nat) :=
  .mkSuccess (sha256 (sha256 input))

/-- `Sha256dAlgorithm::verify`. -/
def Sha256dAlgorithm.verify (sha256 : List Nat → List Nat)
    (input target : List Nat) (nonce : Nat) : AlgorithmResult Bool :=
  verify_with (Sha256dAlgorithm.hash sha256) input target nonce

/-- `ScryptAlgorithm::hash` under the fixed Litecoin parameters
(`n=1024, r=1, p=1, key_len=32`, which `scrypt::Params::new` accepts):
the library call may still fail, so the external primitive returns an
`Option`, with `none` mapped to the `SCRYPT_FAILED` error. -/
def ScryptAlgorithm.hash (scryptPrim : List Nat → Option (List Nat))
    (input : List Nat) : AlgorithmResult (List Nat) :=
  match scryptPrim input with
  | some output => .mkSuccess output
  | none => .mkError "SCRYPT_FAILED" "Scrypt hash failed"

/-- `ScryptAlgorithm::verify`. -/
def ScryptAlgorithm.verify (scryptPrim : List Nat → Option (List Nat))
    (input target : List Nat) (nonce : Nat) : AlgorithmResult Bool :=
  verify_with (ScryptAlgorithm.hash scryptPrim) input target nonce

/-! ## Concrete test engines

These mirror the `MockAlgorithm` of the repository's own test module:
a well-behaved engine whose `hash` echoes its input, and a failing
engine whose `hash` always errors.  They serve as concrete inputs for
counterexamples and witnesses. -/

/-- Test engine whose hash echoes the input (the tests' `MockAlgorithm::new`). -/
def mockAlgorithm (name version : String) : MiningAlgorithm :=
  { name := name, version := version,
    hash := fun input => .mkSuccess input }

/-- Test engine whose hash always fails (the tests' `MockAlgorithm::new_failing`). -/
def mockFailingAlgorithm (name version : String) : MiningAlgorithm :=
  { name := name, version := version,
    hash := fun _ => .mkError "MOCK_ERROR" "Mock algorithm failure" }

/-- A freshly constructed manager (as in the tests: blake2s active, nothing
staged, state `Idle`). -/
def exampleManager : AlgorithmHotSwapManager :=
  AlgorithmHotSwapManager.new (mockAlgorithm "blake2s" "1.0.0")

/-- A manager as it looks right after `stage_algorithm` + `start_migration`:
a validated candidate is staged and shadow mode just began, with no shadow
samples recorded yet. -/
def exampleShadowManager : AlgorithmHotSwapManager :=
  { exampleManager with
      staged_algorithm := some (mockAlgorithm "test_algo" "1.0.0")
      staging_status := .ValidationPassed
      migration_state := .ShadowMode 1 }

/-- A manager in gradual migration whose staged candidate always fails. -/
def exampleGradualFailingManager : AlgorithmHotSwapManager :=
  { exampleManager with
      staged_algorithm := some (mockFailingAlgorithm "failing_algo" "1.0.0")
      staging_status := .ValidationPassed
      migration_state := .GradualMigration (1/2) }

/-- A manager in gradual migration at the first ramp step with clean
metrics (error rate 0). -/
def exampleGradualManager : AlgorithmHotSwapManager :=
  { exampleManager with
      staged_algorithm := some (mockAlgorithm "test_algo" "1.0.0")
      staging_status := .ValidationPassed
      migration_state := .GradualMigration (1/100) }

/-- A manager in gradual migration whose recorded error rate (1) exceeds
the configured budget (1/20). -/
def exampleHighErrorManager : AlgorithmHotSwapManager :=
  { exampleManager with
      staged_algorithm := some (mockAlgorithm "test_algo" "1.0.0")
      staging_status := .ValidationPassed
      migration_state := .GradualMigration (1/100)
      migration_metrics :=
        { MigrationMetrics.default with
            migration_errors := 10, current_error_rate := 1 } }

/-- A manager whose previous migration finished (`Complete`, candidate
already promoted, staging slot cleared). -/
def exampleCompleteManager : AlgorithmHotSwapManager :=
  { exampleManager with migration_state := .Complete }

/-! ## Theorems -/

open AlgorithmHotSwapManager

/-- C4: `rollback_migration` always returns success carrying
`RollbackComplete`, from any state; afterwards the staged candidate is
`none`, the staging status is `NotStaged`, the validation report is
cleared, the migration state is `RollbackComplete` and the active engine
is unchanged; and a second `rollback_migration` again returns
`RollbackComplete` without error. -/
theorem c4_rollback_always_succeeds (m : AlgorithmHotSwapManager) :
    (m.rollback_migration).2.success = true ∧
    (m.rollback_migration).2.data = some .RollbackComplete ∧
    (m.rollback_migration).2.error = none ∧
    (m.rollback_migration).1.staged_algorithm = none ∧
    (m.rollback_migration).1.staging_status = .NotStaged ∧
    (m.rollback_migration).1.validation_results = none ∧
    (m.rollback_migration).1.migration_state = .RollbackComplete ∧
    (m.rollback_migration).1.active_algorithm = m.active_algorithm ∧
    ((m.rollback_migration).1.rollback_migration).2.success = true ∧
    ((m.rollback_migration).1.rollback_migration).2.data = some .RollbackComplete ∧
    ((m.rollback_migration).1.rollback_migration).2.error = none ∧
    ((m.rollback_migration).1.rollback_migration).1.migration_state = .RollbackComplete :=
  ⟨rfl, rfl, rfl, rfl, rfl, rfl, rfl, rfl, rfl, rfl, rfl, rfl⟩

/-- C10: calling `rollback_migration` while the manager is still `Idle`
nevertheless succeeds and moves the state out of `Idle` to
`RollbackComplete`, clearing the staged slot, the staging status and the
validation report; a subsequent `start_migration` no longer observes
`Idle` (it is refused and the state stays `RollbackComplete`). -/
theorem c10_rollback_from_idle (m : AlgorithmHotSwapManager)
    (hidle : m.migration_state = .Idle) :
    (m.rollback_migration).2.success = true ∧
    (m.rollback_migration).1.migration_state = .RollbackComplete ∧
    (m.rollback_migration).1.migration_state ≠ m.migration_state ∧
    (m.rollback_migration).1.staged_algorithm = none ∧
    (m.rollback_migration).1.staging_status = .NotStaged ∧
    (m.rollback_migration).1.validation_results = none ∧
    (∀ migrationId,
      ((m.rollback_migration).1.start_migration migrationId).2.success = false ∧
      ((m.rollback_migration).1.start_migration migrationId).1.migration_state =
        .RollbackComplete) := by
  refine ⟨rfl, rfl, ?_, rfl, rfl, rfl, ?_⟩
  · rw [hidle]; simp [rollback_migration, rollback_begin, rollback_finish]
  · intro migrationId
    exact ⟨rfl, rfl⟩

/-- C10 witness: the freshly constructed manager is `Idle`, and rollback
from it lands in `RollbackComplete`. -/
theorem c10_witness :
    exampleManager.migration_state = .Idle ∧
    (exampleManager.rollback_migration).2.success = true ∧
    (exampleManager.rollback_migration).1.migration_state = .RollbackComplete ∧
    (exampleManager.rollback_migration).1.migration_state ≠ .Idle := by
  have h := c10_rollback_from_idle exampleManager rfl
  exact ⟨rfl, h.1, h.2.1, by rw [h.2.1]; simp⟩

/-- C6: a validation report counts as success exactly when the
compatibility, security and test-vector checks are all true and the error
list is empty; for a report produced by the validation pipeline, a low
performance benchmark or an unmet memory check never prevents success and
only appends the corresponding warning. -/
theorem c6_validation_success_criteria :
    (∀ r : ValidationResults,
      is_validation_successful r =
        (r.compatibility_check && r.security_validation &&
          r.test_vectors_passed && r.errors.isEmpty)) ∧
    (∀ (compat security vectors memory : Bool) (perf : ℚ),
      is_validation_successful
          (validation_results_of_checks compat perf security vectors memory) =
        (compat && security && vectors)) ∧
    (∀ (compat security vectors memory : Bool) (perf : ℚ),
      (validation_results_of_checks compat perf security vectors memory).warnings =
        (if perf < 4/5 then ["Performance below expected threshold"] else []) ++
        (if memory then [] else ["High memory usage detected"])) ∧
    (∀ (compat security vectors memory : Bool) (perf : ℚ),
      (validation_results_of_checks compat perf security vectors memory).errors = [] ↔
        (compat = true ∧ security = true ∧ vectors = true)) := by
  refine ⟨fun r => rfl, ?_, fun _ _ _ _ _ => rfl, ?_⟩
  · intro compat security vectors memory perf
    cases compat <;> cases security <;> cases vectors <;>
      simp [is_validation_successful, validation_results_of_checks]
  · intro compat security vectors memory perf
    cases compat <;> cases security <;> cases vectors <;>
      simp [validation_results_of_checks]

/-- C5: `stage_algorithm` returns the `STAGING_IN_PROGRESS` error exactly
when the staging status is `Staging`, `ValidationInProgress`,
`ValidationPassed` or `Ready` (leaving the manager untouched); from
`NotStaged` or `ValidationFailed` it succeeds and lands in
`ValidationPassed`, so of two calls made back to back from a stageable
state exactly the first returns success and the second gets
`STAGING_IN_PROGRESS`. -/
theorem c5_stage_guard (m : AlgorithmHotSwapManager)
    (alg₁ alg₂ : MiningAlgorithm) :
    ((m.stage_algorithm alg₁).2.errCode = some "STAGING_IN_PROGRESS" ↔
      (m.staging_status = .Staging ∨ m.staging_status = .ValidationInProgress ∨
       m.staging_status = .ValidationPassed ∨ m.staging_status = .Ready)) ∧
    ((m.staging_status = .Staging ∨ m.staging_status = .ValidationInProgress ∨
      m.staging_status = .ValidationPassed ∨ m.staging_status = .Ready) →
      (m.stage_algorithm alg₁).1 = m ∧ (m.stage_algorithm alg₁).2.success = false) ∧
    ((m.staging_status = .NotStaged ∨ m.staging_status = .ValidationFailed) →
      (m.stage_algorithm alg₁).2.success = true ∧
      (m.stage_algorithm alg₁).2.data = some (alg₁.name ++ "_" ++ alg₁.version) ∧
      (m.stage_algorithm alg₁).1.staging_status = .ValidationPassed ∧
      (m.stage_algorithm alg₁).1.staged_algorithm = some alg₁ ∧
      ((m.stage_algorithm alg₁).1.stage_algorithm alg₂).2.success = false ∧
      ((m.stage_algorithm alg₁).1.stage_algorithm alg₂).2.errCode =
        some "STAGING_IN_PROGRESS") := by
  obtain ⟨act, staged, status, state, vr, cfg, mets⟩ := m
  cases status <;>
    simp [stage_algorithm, validate_staged_algorithm, validation_results_of_checks,
      is_validation_successful, AlgorithmResult.errCode, AlgorithmResult.mkError,
      AlgorithmResult.mkSuccess]

/-- C5 witness: staging on a fresh manager succeeds, and an immediately
following second staging attempt is refused with `STAGING_IN_PROGRESS`. -/
theorem c5_witness :
    (exampleManager.stage_algorithm (mockAlgorithm "algo1" "1.0.0")).2.success = true ∧
    ((exampleManager.stage_algorithm (mockAlgorithm "algo1" "1.0.0")).1.stage_algorithm
        (mockAlgorithm "algo2" "1.0.0")).2.errCode = some "STAGING_IN_PROGRESS" := by
  have h := (c5_stage_guard exampleManager (mockAlgorithm "algo1" "1.0.0")
    (mockAlgorithm "algo2" "1.0.0")).2.2 (Or.inl rfl)
  exact ⟨h.1, h.2.2.2.2.2⟩

/-- C1 counterexample: a manager in `ShadowMode` with zero shadow samples
(surely below the threshold of 50) does not stay in `ShadowMode` on
`advance_migration` — the state changes to `RollbackComplete`, refuting
"leaves the migration state unchanged". -/
theorem c1_counterexample :
    exampleShadowManager.migration_state = .ShadowMode 1 ∧
    exampleShadowManager.migration_metrics.shadow_mode_successes +
      exampleShadowManager.migration_metrics.shadow_mode_errors = 0 ∧
    (exampleShadowManager.advance_migration).1.migration_state = .RollbackComplete ∧
    (exampleShadowManager.advance_migration).1.migration_state ≠
      exampleShadowManager.migration_state := by
  refine ⟨rfl, rfl, ?_, ?_⟩ <;> decide

/-- C1 (amended): for every manager in `ShadowMode` whose shadow sample
count is below the threshold of 50, `advance_migration` does not stay in
`ShadowMode`: it takes the rollback path, returning success carrying
`RollbackComplete`, with the staged candidate cleared. -/
theorem c1_below_threshold_rolls_back (m : AlgorithmHotSwapManager) (p : ℚ)
    (hstate : m.migration_state = .ShadowMode p)
    (hcount : m.migration_metrics.shadow_mode_successes +
      m.migration_metrics.shadow_mode_errors < 50) :
    m.advance_migration = m.rollback_migration ∧
    (m.advance_migration).2.success = true ∧
    (m.advance_migration).2.data = some .RollbackComplete ∧
    (m.advance_migration).1.migration_state = .RollbackComplete ∧
    (m.advance_migration).1.staged_algorithm = none ∧
    (m.advance_migration).1.staging_status = .NotStaged := by
  have hsp : m.should_proceed_from_shadow_mode = false := by
    simp [should_proceed_from_shadow_mode, hcount]
  have hadv : m.advance_migration = m.rollback_migration := by
    unfold advance_migration
    rw [hstate]
    simp [hsp]
  rw [hadv]
  exact ⟨rfl, rfl, rfl, rfl, rfl, rfl⟩

/-- C1 witness: the shadow-mode example manager has 0 < 50 samples and
advancing it rolls back. -/
theorem c1_witness :
    exampleShadowManager.migration_metrics.shadow_mode_successes +
      exampleShadowManager.migration_metrics.shadow_mode_errors < 50 ∧
    (exampleShadowManager.advance_migration).2.success = true ∧
    (exampleShadowManager.advance_migration).2.data = some .RollbackComplete := by
  have h := c1_below_threshold_rolls_back exampleShadowManager 1 rfl (by decide)
  exact ⟨by decide, h.2.1, h.2.2.1⟩

/-- C2 counterexample: in `GradualMigration` with a staged engine whose
hash fails, a request whose draw selects the candidate returns the
candidate's failure to the caller (while the active engine would have
succeeded), refuting "the caller never sees a failure caused solely by
the candidate". -/
theorem c2_counterexample :
    exampleGradualFailingManager.migration_state = .GradualMigration (1/2) ∧
    should_use_staged_algorithm 0 (1/2) = true ∧
    (exampleGradualFailingManager.process_hash_request 0 [1, 2]).2.success = false ∧
    (exampleGradualFailingManager.hash_with_active_algorithm [1, 2]).success = true ∧
    (exampleGradualFailingManager.process_hash_request 0 [1, 2]).2 ≠
      exampleGradualFailingManager.hash_with_active_algorithm [1, 2] ∧
    (exampleGradualFailingManager.process_hash_request 0 [1, 2]).1.migration_metrics.migration_errors = 1 := by
  have hdraw : should_use_staged_algorithm 0 (1/2) = true := by
    simp only [should_use_staged_algorithm, decide_eq_true_eq]
    norm_num
  have hproc : exampleGradualFailingManager.process_hash_request 0 [1, 2] =
      (exampleGradualFailingManager.record_migration_result
        (AlgorithmResult.mkError "MOCK_ERROR" "Mock algorithm failure"),
       AlgorithmResult.mkError "MOCK_ERROR" "Mock algorithm failure") := by
    simp only [process_hash_request, exampleGradualFailingManager, exampleManager,
      AlgorithmHotSwapManager.new, hash_with_staged_algorithm, Option.map,
      mockFailingAlgorithm, hdraw, eq_self_iff_true, if_true]
  refine ⟨rfl, hdraw, ?_, rfl, ?_, ?_⟩
  · rw [hproc]
    rfl
  · rw [hproc]
    decide
  · rw [hproc]
    rfl

/-- C2 (amended): in `GradualMigration`, whenever the draw selects the
candidate and a staged engine is present, `process_hash_request` returns
the candidate's result to the caller — including its failures — while
recording the outcome in the migration metrics (errors are incremented on
failure); the active engine serves such a request only when no staged
engine is present. -/
theorem c2_candidate_result_returned (m : AlgorithmHotSwapManager) (p : ℚ)
    (alg : MiningAlgorithm) (threadHash : Nat) (input : List Nat)
    (hstate : m.migration_state = .GradualMigration p)
    (hdraw : should_use_staged_algorithm threadHash p = true) :
    (m.staged_algorithm = some alg →
      (m.process_hash_request threadHash input).2 = alg.hash input ∧
      (m.process_hash_request threadHash input).1 =
        m.record_migration_result (alg.hash input) ∧
      ((alg.hash input).success = false →
        (m.process_hash_request threadHash input).1.migration_metrics.migration_errors =
          m.migration_metrics.migration_errors + 1)) ∧
    (m.staged_algorithm = none →
      (m.process_hash_request threadHash input).2 =
        m.hash_with_active_algorithm input) := by
  constructor
  · intro hstaged
    have hproc : m.process_hash_request threadHash input =
        (m.record_migration_result (alg.hash input), alg.hash input) := by
      unfold process_hash_request
      rw [hstate]
      simp [hdraw, hash_with_staged_algorithm, hstaged]
    refine ⟨by rw [hproc], by rw [hproc], ?_⟩
    intro hfail
    rw [hproc]
    simp [record_migration_result, hfail]
  · intro hnone
    unfold process_hash_request
    rw [hstate]
    simp [hdraw, hash_with_staged_algorithm, hnone]

/-- C2 witness: concrete failing candidate selected as primary — its
error result is returned and its failure counted. -/
theorem c2_witness :
    should_use_staged_algorithm 0 (1/2) = true ∧
    (exampleGradualFailingManager.process_hash_request 0 [1, 2]).2 =
      (mockFailingAlgorithm "failing_algo" "1.0.0").hash [1, 2] ∧
    (exampleGradualFailingManager.process_hash_request 0 [1, 2]).1.migration_metrics.migration_errors =
      exampleGradualFailingManager.migration_metrics.migration_errors + 1 := by
  have hdraw : should_use_staged_algorithm 0 (1/2) = true := by
    simp only [should_use_staged_algorithm, decide_eq_true_eq]
    norm_num
  have h := (c2_candidate_result_returned exampleGradualFailingManager (1/2)
    (mockFailingAlgorithm "failing_algo" "1.0.0") 0 [1, 2] rfl hdraw).1 rfl
  exact ⟨hdraw, h.1, h.2.2 rfl⟩

/-- C3 counterexample: from the terminal state `Complete`, staging a fresh
candidate succeeds (`ValidationPassed`), but the subsequent
`start_migration` is refused with `MIGRATION_IN_PROGRESS` and the state
stays `Complete` — it never enters `ShadowMode`, refuting the claim. -/
theorem c3_counterexample :
    exampleCompleteManager.migration_state = .Complete ∧
    (exampleCompleteManager.stage_algorithm (mockAlgorithm "test_algo" "1.0.0")).2.success = true ∧
    (exampleCompleteManager.stage_algorithm
        (mockAlgorithm "test_algo" "1.0.0")).1.staging_status = .ValidationPassed ∧
    ((exampleCompleteManager.stage_algorithm
        (mockAlgorithm "test_algo" "1.0.0")).1.start_migration "mig-1").2.success = false ∧
    ((exampleCompleteManager.stage_algorithm
        (mockAlgorithm "test_algo" "1.0.0")).1.start_migration "mig-1").2.errCode =
      some "MIGRATION_IN_PROGRESS" ∧
    ((exampleCompleteManager.stage_algorithm
        (mockAlgorithm "test_algo" "1.0.0")).1.start_migration "mig-1").1.migration_state =
      .Complete := by
  refine ⟨rfl, ?_, ?_, ?_, ?_, ?_⟩ <;> decide

/-- C3 (amended): from each terminal state (`Complete`,
`RollbackComplete`, `Failed`) with the staging slot cleared, staging a new
candidate succeeds, but a subsequent `start_migration` still fails with
`MIGRATION_IN_PROGRESS` and never enters `ShadowMode`: the migration
state is never reset to `Idle`, so no further migration can ever be
started. -/
theorem c3_terminal_blocks_restart (m : AlgorithmHotSwapManager)
    (alg : MiningAlgorithm) (migrationId : String)
    (hterm : m.migration_state = .Complete ∨
      m.migration_state = .RollbackComplete ∨ m.migration_state = .Failed)
    (hstatus : m.staging_status = .NotStaged) :
    (m.stage_algorithm alg).2.success = true ∧
    (m.stage_algorithm alg).1.staging_status = .ValidationPassed ∧
    (m.stage_algorithm alg).1.migration_state = m.migration_state ∧
    ((m.stage_algorithm alg).1.start_migration migrationId).2.success = false ∧
    ((m.stage_algorithm alg).1.start_migration migrationId).2.errCode =
      some "MIGRATION_IN_PROGRESS" ∧
    ((m.stage_algorithm alg).1.start_migration migrationId).1.migration_state =
      m.migration_state := by
  obtain ⟨act, staged, status, state, vr, cfg, mets⟩ := m
  simp only at hstatus
  subst hstatus
  have hne : state ≠ .Idle := by
    rcases hterm with h | h | h <;> simp only at h <;> subst h <;> simp
  simp [stage_algorithm, validate_staged_algorithm, validation_results_of_checks,
    is_validation_successful, start_migration, hne, AlgorithmResult.errCode,
    AlgorithmResult.mkError, AlgorithmResult.mkSuccess]

/-- C3 witness: instantiated at the `Complete` example manager. -/
theorem c3_witness :
    (exampleCompleteManager.stage_algorithm (mockAlgorithm "third_algo" "1.0.0")).2.success = true ∧
    ((exampleCompleteManager.stage_algorithm
        (mockAlgorithm "third_algo" "1.0.0")).1.start_migration "mig-2").2.errCode =
      some "MIGRATION_IN_PROGRESS" := by
  have h := c3_terminal_blocks_restart exampleCompleteManager
    (mockAlgorithm "third_algo" "1.0.0") "mig-2" (Or.inl rfl) rfl
  exact ⟨h.1, h.2.2.2.2.1⟩

/-- C7: in `GradualMigration` with the error budget respected and a
candidate staged, a successful `advance_migration` either moves to the
first configured ramp value strictly greater than the current percentage
(so repeated successful advances are strictly increasing along the ramp
list), or — once the next step reaches 1.0 or the list is exhausted —
terminates in `Complete`. -/
theorem c7_ramp_monotone (m : AlgorithmHotSwapManager) (p : ℚ)
    (alg : MiningAlgorithm)
    (hstate : m.migration_state = .GradualMigration p)
    (hrate : m.migration_metrics.current_error_rate ≤
      m.migration_config.max_error_rate)
    (hstaged : m.staged_algorithm = some alg) :
    (m.advance_migration).2.success = true ∧
    ((∃ q, get_next_migration_percentage p m.migration_config.gradual_percentages =
          some q ∧
        q < 1 ∧
        (m.advance_migration).1.migration_state = .GradualMigration q ∧
        p < q ∧ q ∈ m.migration_config.gradual_percentages ∧
        (∃ l₁ l₂, m.migration_config.gradual_percentages = l₁ ++ q :: l₂ ∧
          ∀ x ∈ l₁, ¬ p < x)) ∨
      ((m.advance_migration).1.migration_state = .Complete ∧
        (m.advance_migration).2.data = some .Complete ∧
        (get_next_migration_percentage p m.migration_config.gradual_percentages =
            none ∨
          ∃ q, get_next_migration_percentage p
              m.migration_config.gradual_percentages = some q ∧ 1 ≤ q))) := by
  have hsa : m.should_advance_migration_phase = true := by
    unfold should_advance_migration_phase
    exact decide_eq_true hrate
  rcases hfind : get_next_migration_percentage p
      m.migration_config.gradual_percentages with _ | q
  · refine ⟨?_, Or.inr ⟨?_, ?_, Or.inl rfl⟩⟩ <;>
      · unfold advance_migration finalize_migration
        rw [hstate]
        simp [hsa, hfind, hstaged, AlgorithmResult.mkSuccess]
  · by_cases h1 : (1 : ℚ) ≤ q
    · refine ⟨?_, Or.inr ⟨?_, ?_, Or.inr ⟨q, rfl, h1⟩⟩⟩ <;>
        · unfold advance_migration finalize_migration
          rw [hstate]
          simp [hsa, hfind, hstaged, h1, AlgorithmResult.mkSuccess]
    · have hq1 : q < 1 := not_le.mp h1
      have hfind' : m.migration_config.gradual_percentages.find?
          (fun x => decide (x > p)) = some q := hfind
      have hpq : p < q := by
        have hq := List.find?_some hfind'
        simpa using hq
      have hmem : q ∈ m.migration_config.gradual_percentages :=
        List.mem_of_find?_eq_some hfind'
      obtain ⟨-, l₁, l₂, heq, hprev⟩ := List.find?_eq_some.mp hfind'
      refine ⟨?_, Or.inl ⟨q, rfl, hq1, ?_, hpq, hmem, l₁, l₂, heq, ?_⟩⟩
      · unfold advance_migration
        rw [hstate]
        simp [hsa, hfind, h1, AlgorithmResult.mkSuccess]
      · unfold advance_migration
        rw [hstate]
        simp [hsa, hfind, h1, AlgorithmResult.mkSuccess]
      · intro x hx
        have := hprev x hx
        simp only [Bool.not_eq_eq_eq_not, Bool.not_true,
          decide_eq_false_iff_not] at this
        exact this

/-- C7 witness: the clean gradual-migration example manager satisfies the
error-budget hypothesis and advances successfully. -/
theorem c7_witness :
    exampleGradualManager.migration_state = .GradualMigration (1/100) ∧
    exampleGradualManager.migration_metrics.current_error_rate ≤
      exampleGradualManager.migration_config.max_error_rate ∧
    (exampleGradualManager.advance_migration).2.success = true := by
  have hrate : exampleGradualManager.migration_metrics.current_error_rate ≤
      exampleGradualManager.migration_config.max_error_rate := by
    norm_num [exampleGradualManager, exampleManager, AlgorithmHotSwapManager.new,
      MigrationMetrics.default, MigrationConfig.default]
  exact ⟨rfl, hrate, (c7_ramp_monotone exampleGradualManager (1/100)
    (mockAlgorithm "test_algo" "1.0.0") rfl hrate rfl).1⟩

/-- C8: in `GradualMigration`, once the recorded error rate exceeds the
configured maximum, the next `advance_migration` takes the rollback path
(through `RollingBack` into `RollbackComplete`): it never moves to any
higher percentage, nor to `Finalizing` or `Complete`. -/
theorem c8_error_budget_rollback (m : AlgorithmHotSwapManager) (p : ℚ)
    (hstate : m.migration_state = .GradualMigration p)
    (hrate : m.migration_config.max_error_rate <
      m.migration_metrics.current_error_rate) :
    m.advance_migration = m.rollback_migration ∧
    (m.rollback_begin).migration_state = .RollingBack ∧
    (m.advance_migration).2.success = true ∧
    (m.advance_migration).2.data = some .RollbackComplete ∧
    (m.advance_migration).1.migration_state = .RollbackComplete ∧
    (m.advance_migration).1.migration_state ≠ .Finalizing ∧
    (m.advance_migration).1.migration_state ≠ .Complete ∧
    (∀ q : ℚ, (m.advance_migration).1.migration_state ≠ .GradualMigration q) := by
  have hsa : m.should_advance_migration_phase = false := by
    unfold should_advance_migration_phase
    exact decide_eq_false (not_le.mpr hrate)
  have hadv : m.advance_migration = m.rollback_migration := by
    unfold advance_migration
    rw [hstate]
    simp [hsa]
  rw [hadv]
  refine ⟨rfl, rfl, rfl, rfl, rfl, ?_, ?_, ?_⟩ <;>
    simp [rollback_migration, rollback_begin, rollback_finish]

/-- C8 witness: the over-budget example manager (error rate 1 against a
budget of 1/20) rolls back on advance. -/
theorem c8_witness :
    exampleHighErrorManager.migration_config.max_error_rate <
      exampleHighErrorManager.migration_metrics.current_error_rate ∧
    (exampleHighErrorManager.advance_migration).1.migration_state =
      .RollbackComplete ∧
    (exampleHighErrorManager.advance_migration).2.data =
      some .RollbackComplete := by
  have hrate : exampleHighErrorManager.migration_config.max_error_rate <
      exampleHighErrorManager.migration_metrics.current_error_rate := by
    norm_num [exampleHighErrorManager, exampleManager,
      AlgorithmHotSwapManager.new, MigrationMetrics.default,
      MigrationConfig.default]
  have h := c8_error_budget_rollback exampleHighErrorManager (1/100) rfl hrate
  exact ⟨hrate, h.2.2.2.2.1, h.2.2.2.1⟩

/-- The boolean slice comparison agrees with the mathematical
lexicographic strict order on lists. -/
theorem lexLt_iff_lex (a b : List Nat) :
    lexLt a b = true ↔ List.Lex (· < ·) a b := by
  induction a generalizing b with
  | nil =>
      cases b with
      | nil =>
          constructor
          · intro h
            exact nomatch h
          · intro h
            cases h
      | cons y bs =>
          constructor
          · intro _
            exact List.Lex.nil
          · intro _
            rfl
  | cons x as ih =>
      cases b with
      | nil =>
          constructor
          · intro h
            exact nomatch h
          · intro h
            cases h
      | cons y bs =>
          rcases lt_trichotomy x y with hxy | hxy | hxy
          · have hred : lexLt (x :: as) (y :: bs) = true := by
              show (if x < y then true else if y < x then false else lexLt as bs) =
                true
              rw [if_pos hxy]
            rw [hred]
            exact iff_of_true rfl (List.Lex.rel hxy)
          · subst hxy
            have hred : lexLt (x :: as) (x :: bs) = lexLt as bs := by
              show (if x < x then true else if x < x then false else lexLt as bs) =
                lexLt as bs
              rw [if_neg (lt_irrefl x), if_neg (lt_irrefl x)]
            rw [hred]
            constructor
            · intro h
              exact List.Lex.cons ((ih bs).mp h)
            · intro h
              cases h with
              | rel h' => exact absurd h' (lt_irrefl x)
              | cons h' => exact (ih bs).mpr h'
          · have hnxy : ¬ x < y := not_lt.mpr (le_of_lt hxy)
            have hred : lexLt (x :: as) (y :: bs) = false := by
              show (if x < y then true else if y < x then false else lexLt as bs) =
                false
              rw [if_neg hnxy, if_pos hxy]
            rw [hred]
            constructor
            · intro h
              exact nomatch h
            · intro h
              cases h with
              | rel h' => exact absurd h' hnxy
              | cons h' => exact absurd hxy (lt_irrefl _)

/-- C9: for each engine (blake2s, scrypt, sha256d), `verify` hashes the
input with the 8-byte little-endian nonce appended and, when hashing
succeeds, compares against the target: an empty target never passes, an
all-`0xFF` target always passes, and otherwise passing requires the hash
to have the target's length and to be lexicographically less than it. -/
theorem c9_verify_definition (blake2s256 sha256 : List Nat → List Nat)
    (scryptPrim : List Nat → Option (List Nat))
    (input target : List Nat) (nonce : Nat) :
    Blake2SAlgorithm.verify blake2s256 input target nonce =
      .mkSuccess (meets_target (blake2s256 (input ++ u64_le_bytes nonce)) target) ∧
    Sha256dAlgorithm.verify sha256 input target nonce =
      .mkSuccess
        (meets_target (sha256 (sha256 (input ++ u64_le_bytes nonce))) target) ∧
    (∀ out, scryptPrim (input ++ u64_le_bytes nonce) = some out →
      ScryptAlgorithm.verify scryptPrim input target nonce =
        .mkSuccess (meets_target out target)) ∧
    (scryptPrim (input ++ u64_le_bytes nonce) = none →
      ScryptAlgorithm.verify scryptPrim input target nonce =
        .mkError "HASH_FAILED" "Failed to hash input for verification") ∧
    u64_le_bytes nonce = (List.range 8).map (fun i => nonce / 256 ^ i % 256) ∧
    (∀ hsh, target = [] → meets_target hsh target = false) ∧
    (∀ hsh, target ≠ [] → (∀ b ∈ target, b = 255) →
      meets_target hsh target = true) ∧
    (∀ hsh, target ≠ [] → (∃ b ∈ target, b ≠ 255) →
      (meets_target hsh target = true ↔
        hsh.length = target.length ∧ List.Lex (· < ·) hsh target)) := by
  refine ⟨rfl, rfl, ?_, ?_, ?_, ?_, ?_, ?_⟩
  · intro out h
    simp only [ScryptAlgorithm.verify, verify_with, ScryptAlgorithm.hash, h,
      AlgorithmResult.mkSuccess]
  · intro h
    simp only [ScryptAlgorithm.verify, verify_with, ScryptAlgorithm.hash, h,
      AlgorithmResult.mkError]
  · simp [u64_le_bytes, List.range_succ]
  · intro hsh ht
    subst ht
    rfl
  · intro hsh ht hall
    have hall' : target.all (fun b => b == 255) = true := by
      simp only [List.all_eq_true, beq_iff_eq]
      exact hall
    simp [meets_target, ht, hall']
  · intro hsh ht hex
    have hall' : target.all (fun b => b == 255) = false := by
      obtain ⟨b, hb, hbne⟩ := hex
      simp only [List.all_eq_false]
      exact ⟨b, hb, by simpa using hbne⟩
    simp [meets_target, ht, hall', Bool.and_eq_true, beq_iff_eq,
      lexLt_iff_lex]

/-- C9 witness: the characterization instantiated at concrete primitives,
inputs and targets. -/
theorem c9_witness :
    Blake2SAlgorithm.verify (fun l => l) [7] [200] 3 =
      .mkSuccess (meets_target ([7] ++ u64_le_bytes 3) [200]) ∧
    meets_target [1, 2] [255, 255] = true ∧
    meets_target [5] [] = false ∧
    ScryptAlgorithm.verify (fun l => some l) [7] [200] 3 =
      .mkSuccess false := by
  refine ⟨(c9_verify_definition (fun l => l) (fun l => l) (fun l => some l)
    [7] [200] 3).1, ?_, ?_, ?_⟩
  · exact (c9_verify_definition (fun l => l) (fun l => l) (fun l => some l)
      [7] [255, 255] 3).2.2.2.2.2.2.1 [1, 2] (by decide) (by decide)
  · exact (c9_verify_definition (fun l => l) (fun l => l) (fun l => some l)
      [7] [] 3).2.2.2.2.2.1 [5] rfl
  · have h := (c9_verify_definition (fun l => l) (fun l => l) (fun l => some l)
      [7] [200] 3).2.2.1 ([7] ++ u64_le_bytes 3) rfl
    rw [h]
    decide

end ChimeraPool
